import Mathlib

/-!
Shallow embedding of the face-matching and attendance-session core of the
attendance-tracker repository (Express/Mongoose backend).

Part A embeds `server/services/faceRecognition.js` (descriptor cache,
`compareFaces`, `recognizeFace`, `loadFaceDescriptors`,
`reloadFaceDescriptors`).  JS numbers are idealised as elements of a linear
ordered field; `Math.sqrt` is passed in as a function parameter and is
instantiated with `Real.sqrt` in the theorems.

Part B embeds the attendance-session route handlers of
`server/routes/attendance.js` together with the Mongoose models
`server/models/Attendance.js` (unique compound index on
(studentId, courseId, date), `date` stored as a "YYYY-MM-DD" string) and the
`AttendanceSession` model.  Database state is explicit
(`DB`), each HTTP handler is a pure function from state and request data to a
response plus the new state.  The HTTP/validation/authentication layers and
the external face API are outside the embedding: handlers receive their
results (recognized student id, confidence, caller role) as arguments.
-/

/-- A cache entry of `FaceRecognitionService.faceDescriptors`: the value stored
under a student-id key, holding the student identity and the list of stored
face encodings (`student.faceEncodings.map(fe => fe.encoding)`).  An encoding
coming from the database may be absent (`none`), mirroring the null guard in
`compareFaces`. -/
structure CacheEntry (α : Type) where
  studentId : String
  name : String
  studentIdNumber : String
  encodings : List (Option (List α))
deriving DecidableEq

/-- One element of `recognizeFace`'s `results` array:
`{studentId, name, studentIdNumber, confidence}`. -/
structure MatchResult (α : Type) where
  studentId : String
  name : String
  studentIdNumber : String
  confidence : α
deriving DecidableEq

/-- The squared-difference accumulation loop of `compareFaces`:
`for (i...) distance += Math.pow(encoding1[i] - encoding2[i], 2)`.
The two lists have equal length at every call site (the guard in
`compareFaces` returns early otherwise), so pairing by `zip` is exact. -/
def sqDiffSum {α : Type} [LinearOrderedField α] (encoding1 encoding2 : List α) : α :=
  (encoding1.zip encoding2).foldl (fun acc p => acc + (p.1 - p.2) ^ 2) 0

/-- `compareFaces(encoding1, encoding2)`: returns `0` if either encoding is
missing or the lengths differ; otherwise takes the Euclidean distance
`Math.sqrt(sum of squared differences)` and returns the confidence
`Math.max(0, 1 - distance / 2)`. -/
def compareFaces {α : Type} [LinearOrderedField α] (sqrt : α → α)
    (encoding1 encoding2 : Option (List α)) : α :=
  match encoding1, encoding2 with
  | some l1, some l2 =>
    if l1.length ≠ l2.length then 0
    else max 0 (1 - sqrt (sqDiffSum l1 l2) / 2)
  | _, _ => 0

/-- The inner loop of `recognizeFace` for one student:
`bestConfidence = 0; for (encoding of studentData.encodings)
bestConfidence = Math.max(bestConfidence, compareFaces(input, encoding))`. -/
def bestConfidence {α : Type} [LinearOrderedField α] (sqrt : α → α)
    (inputEncoding : Option (List α)) (encodings : List (Option (List α))) : α :=
  encodings.foldl (fun best e => max best (compareFaces sqrt inputEncoding e)) 0

/-- The candidate loop of `recognizeFace`: iterate over the cache map entries in
insertion order, skip students not in `enrolledStudentIds`, and push a result
exactly when `bestConfidence > 0.7`. -/
def candidateResults {α : Type} [LinearOrderedField α] (sqrt : α → α)
    (cache : List (String × CacheEntry α)) (enrolledStudentIds : List String)
    (inputEncoding : List α) : List (MatchResult α) :=
  (cache.filter (fun p => enrolledStudentIds.contains p.1)).filterMap
    (fun p =>
      let best := bestConfidence sqrt (some inputEncoding) p.2.encodings
      if best > 7 / 10 then
        some ⟨p.2.studentId, p.2.name, p.2.studentIdNumber, best⟩
      else none)

/-- `results.sort((a, b) => b.confidence - a.confidence)`: JS `Array.sort` with
a consistent comparator is a stable sort by the comparator order, modelled by
insertion sort ordered by descending confidence. -/
def sortByConfidenceDesc {α : Type} [LinearOrderedField α]
    (results : List (MatchResult α)) : List (MatchResult α) :=
  results.insertionSort (fun a b => b.confidence ≤ a.confidence)

/-- `recognizeFace` after the image decode and course lookup: `courseRoster` is
`course.enrolledStudents` (or `none` when the course lookup failed, in which
case the function returns `[]`); the qualifying results are sorted by
descending confidence and the top 3 are returned (`results.slice(0, 3)`). -/
def recognizeFace {α : Type} [LinearOrderedField α] (sqrt : α → α)
    (cache : List (String × CacheEntry α)) (courseRoster : Option (List String))
    (inputEncoding : List α) : List (MatchResult α) :=
  match courseRoster with
  | none => []
  | some enrolledStudentIds =>
    (sortByConfidenceDesc (candidateResults sqrt cache enrolledStudentIds inputEncoding)).take 3

/-- A student document as returned by the `Student.find` query inside
`loadFaceDescriptors` (already restricted to `isActive: true` with at least
one face encoding by the query filter). -/
structure StudentDoc (α : Type) where
  id : String
  name : String
  studentIdNumber : String
  faceEncodings : List (Option (List α))
deriving DecidableEq

/-- JS `Map.set` semantics on the association-list model of
`faceDescriptors`: replacing the value of an existing key keeps its original
insertion position; a new key is appended. -/
def mapSet {α : Type} (m : List (String × CacheEntry α)) (k : String)
    (v : CacheEntry α) : List (String × CacheEntry α) :=
  if m.any (fun p => p.1 == k) then
    m.map (fun p => if p.1 == k then (k, v) else p)
  else m ++ [(k, v)]

/-- `loadFaceDescriptors`: on query success, `forEach` sets an entry for every
returned student that has at least one encoding, merging into the current map
(the map is not cleared first); on query failure the `catch` block only logs
(`console.error`) — the map is left as it was and no error reaches the caller.
The second component is the error surfaced to the caller: always `none`,
because the function never rethrows. -/
def loadFaceDescriptors {α : Type} (cache : List (String × CacheEntry α))
    (queryResult : Except String (List (StudentDoc α))) :
    List (String × CacheEntry α) × Option String :=
  match queryResult with
  | .error _ => (cache, none)
  | .ok students =>
    (students.foldl
      (fun c s =>
        if s.faceEncodings.length > 0 then
          mapSet c s.id ⟨s.id, s.name, s.studentIdNumber, s.faceEncodings⟩
        else c)
      cache, none)

/-- `reloadFaceDescriptors`: `this.faceDescriptors.clear()` and then
`await this.loadFaceDescriptors()` — the load starts from the emptied map. -/
def reloadFaceDescriptors {α : Type} (cache : List (String × CacheEntry α))
    (queryResult : Except String (List (StudentDoc α))) :
    List (String × CacheEntry α) × Option String :=
  let _ := cache
  loadFaceDescriptors [] queryResult

/-- A BSON field value for the `date` path of an attendance document: the
schema declares `date: String` ("YYYY-MM-DD") but the face-recognition
handler queries it with JS `Date` bounds, so both BSON types occur. -/
inductive BsonVal where
  | str (s : String)
  | date (ms : Int)
deriving DecidableEq

/-- MongoDB comparison-query semantics for `{date: {$gte: <Date bound>}}`:
range operators use type bracketing — only values of the bound's BSON type
(here `Date`) can satisfy the bound; a string value never matches. -/
def bsonGeDate (v : BsonVal) (lo : Int) : Bool :=
  match v with
  | .date ms => lo ≤ ms
  | .str _ => false

/-- `{date: {$lt: <Date bound>}}` under the same type bracketing. -/
def bsonLtDate (v : BsonVal) (hi : Int) : Bool :=
  match v with
  | .date ms => ms < hi
  | .str _ => false

/-- An `Attendance` document (`server/models/Attendance.js`): the
`recognitionData` subdocument is flattened into `method`, `confidence` and
`markedBy`. -/
structure AttendanceDoc where
  studentId : String
  courseId : String
  sessionId : String
  date : BsonVal
  timestamp : Int
  status : String
  notes : Option String
  method : String
  confidence : Option ℚ
  markedBy : Option String
deriving DecidableEq

/-- An `AttendanceSession` document as used by the route handlers
(`_id`, `courseId`, `facultyId`, `sessionName`, `status`, `startTime`,
`endTime`), plus the stored `absentStudents` counter declared by the
session schema (the schema also declares `presentStudents` and
`lateStudents`, handled identically: no route handler ever writes them). -/
structure SessionDoc where
  sid : String
  courseId : String
  facultyId : String
  sessionName : String
  status : String
  startTime : Int
  endTime : Option Int
  absentStudents : Int
deriving DecidableEq

/-- A `Course` document restricted to what the handlers read. -/
structure CourseDoc where
  cid : String
  enrolledStudents : List String
deriving DecidableEq

/-- The persistent state the attendance routes operate on. -/
structure DbState where
  courses : List CourseDoc
  students : List String
  sessions : List SessionDoc
  attendance : List AttendanceDoc
deriving DecidableEq

/-- An HTTP response reduced to the parts the claims talk about. -/
structure HandlerResponse where
  status : Nat
  success : Bool
  message : String
  sessionOut : Option SessionDoc
  attendanceOut : Option AttendanceDoc
deriving DecidableEq

/-- `AttendanceSession.findById(sessionId)`. -/
def findSession (db : DbState) (sessionId : String) : Option SessionDoc :=
  db.sessions.find? (fun s => s.sid == sessionId)

/-- `Course.findById(courseId)`. -/
def findCourse (db : DbState) (courseId : String) : Option CourseDoc :=
  db.courses.find? (fun c => c.cid == courseId)

/-- The unique-key test of the compound index
`attendanceSchema.index({studentId: 1, courseId: 1, date: 1}, {unique: true})`. -/
def hasDuplicateKey (l : List AttendanceDoc) (a : AttendanceDoc) : Bool :=
  l.any (fun b => b.studentId == a.studentId && b.courseId == a.courseId && b.date == a.date)

/-- `attendance.save()` on a new document: MongoDB rejects the insert with a
duplicate-key error when a document with the same (studentId, courseId, date)
already exists (the unique compound index); otherwise the document is
appended. -/
def insertAttendance (l : List AttendanceDoc) (a : AttendanceDoc) :
    Except Unit (List AttendanceDoc) :=
  if hasDuplicateKey l a then .error () else .ok (l ++ [a])

/-- `existingAttendance.save()` on a fetched document: the stored document is
replaced in place (first match of the lookup predicate). -/
def replaceFirst {β : Type} (p : β → Bool) (v : β) : List β → List β
  | [] => []
  | x :: xs => if p x then v :: xs else x :: replaceFirst p v xs

/-- `POST /api/attendance/sessions/start` (after validation): 404 when the
course is missing; 400 when `AttendanceSession.findOne({courseId,
status: 'active'})` finds an active session for the course (whatever its
date); otherwise a new active session is saved and returned with 201. -/
def startSessionHandler (db : DbState) (newSessionId courseId sessionName facultyId : String)
    (now : Int) : HandlerResponse × DbState :=
  match findCourse db courseId with
  | none => (⟨404, false, "Course not found", none, none⟩, db)
  | some _ =>
    match db.sessions.find? (fun s => s.courseId == courseId && s.status == "active") with
    | some _ =>
      (⟨400, false, "An attendance session is already active for this course", none, none⟩, db)
    | none =>
      let session : SessionDoc :=
        ⟨newSessionId, courseId, facultyId, sessionName, "active", now, none, 0⟩
      (⟨201, true, "Attendance session started successfully", some session, none⟩,
        { db with sessions := db.sessions ++ [session] })

/-- The existing-attendance lookup of the face-recognition handler:
`Attendance.findOne({studentId, courseId, sessionId,
date: {$gte: today, $lt: tomorrow}})` where `today` is midnight as a JS
`Date` and `tomorrow` is one day later. -/
def findExistingFaceAttendance (db : DbState) (session : SessionDoc)
    (studentId : String) (todayMid : Int) : Option AttendanceDoc :=
  db.attendance.find? (fun a =>
    a.studentId == studentId && a.courseId == session.courseId &&
    a.sessionId == session.sid && bsonGeDate a.date todayMid &&
    bsonLtDate a.date (todayMid + 86400000))

/-- `POST /api/attendance/face-recognition` (after validation): the external
face API result arrives as `faceSuccess`/`faceStudentId`/`confidence`;
`todayMid` is midnight today in epoch milliseconds and `todayStr` is
`new Date().toISOString().split('T')[0]`.  Checks in source order: session
missing → 404; session not active → 400; face API unsuccessful → 200 with
`success: false`; student missing → 404; existing attendance found → 200
"already marked" without a write; otherwise a new record with a string date
is saved — a duplicate-key rejection from the unique index lands in the
`catch` block as a 500.  (The `$inc` update of `totalRecognitions` /
`successfulRecognitions` targets paths absent from the session schema and is
dropped by Mongoose strict mode, so the session list is unchanged.) -/
def faceRecognitionHandler (db : DbState) (sessionId : String) (faceSuccess : Bool)
    (faceStudentId : String) (confidence : ℚ) (todayMid : Int) (todayStr : String)
    (now : Int) : HandlerResponse × DbState :=
  match findSession db sessionId with
  | none => (⟨404, false, "Attendance session not found", none, none⟩, db)
  | some session =>
    if session.status ≠ "active" then
      (⟨400, false, "Attendance session is not active", none, none⟩, db)
    else if ¬ faceSuccess then
      (⟨200, false, "No face recognized or face is not live", none, none⟩, db)
    else if ¬ db.students.contains faceStudentId then
      (⟨404, false, "Student not found in database", none, none⟩, db)
    else
      match findExistingFaceAttendance db session faceStudentId todayMid with
      | some a =>
        (⟨200, false, "Attendance already marked for this student today", none, some a⟩, db)
      | none =>
        let newRecord : AttendanceDoc :=
          ⟨faceStudentId, session.courseId, session.sid, .str todayStr, now, "present",
            none, "face_recognition", some confidence, none⟩
        match insertAttendance db.attendance newRecord with
        | .error _ => (⟨500, false, "Face recognition processing failed", none, none⟩, db)
        | .ok l =>
          (⟨201, true, "Attendance marked successfully via face recognition", none,
            some newRecord⟩, { db with attendance := l })

/-- The existing-attendance lookup of the manual handler:
`Attendance.findOne({studentId, courseId, sessionId, date: today})` with
`today` the "YYYY-MM-DD" string. -/
def manualExistingPred (session : SessionDoc) (studentId todayStr : String)
    (a : AttendanceDoc) : Bool :=
  a.studentId == studentId && a.courseId == session.courseId &&
  a.sessionId == session.sid && a.date == BsonVal.str todayStr

/-- `POST /api/attendance/manual` (after validation): session missing → 404;
caller neither the session's faculty nor an admin → 403; student missing →
404; an existing record for (studentId, courseId, sessionId, today-string) is
overwritten in place (status, timestamp, notes, recognitionData) → 200;
otherwise a new record is saved → 201, with a duplicate-key rejection from
the unique index landing in the `catch` block as a 500.  Note: the session's
`status` is never consulted. -/
def manualHandler (db : DbState) (sessionId studentId statusReq : String)
    (notes : Option String) (facultyId : String) (isAdmin : Bool) (todayStr : String)
    (now : Int) : HandlerResponse × DbState :=
  match findSession db sessionId with
  | none => (⟨404, false, "Attendance session not found", none, none⟩, db)
  | some session =>
    if session.facultyId ≠ facultyId ∧ ¬ isAdmin then
      (⟨403, false, "Permission denied for this session", none, none⟩, db)
    else if ¬ db.students.contains studentId then
      (⟨404, false, "Student not found", none, none⟩, db)
    else
      match db.attendance.find? (manualExistingPred session studentId todayStr) with
      | some a =>
        let updated : AttendanceDoc :=
          { a with
              status := statusReq
              timestamp := now
              notes := notes
              method := "manual"
              confidence := none
              markedBy := some facultyId }
        (⟨200, true, "Attendance updated successfully", none, some updated⟩,
          { db with attendance := replaceFirst (manualExistingPred session studentId todayStr) updated db.attendance })
      | none =>
        let newRecord : AttendanceDoc :=
          ⟨studentId, session.courseId, session.sid, .str todayStr, now, statusReq,
            notes, "manual", none, some facultyId⟩
        match insertAttendance db.attendance newRecord with
        | .error _ => (⟨500, false, "Failed to mark attendance", none, none⟩, db)
        | .ok l =>
          (⟨201, true, "Attendance marked successfully", none, some newRecord⟩,
            { db with attendance := l })

/-- `PUT /api/attendance/sessions/:sessionId/end`: session missing → 404;
permission check → 403; `session.status !== 'active'` → 400; otherwise the
session is saved with `status = 'completed'` and `endTime = now` → 200. -/
def endSessionHandler (db : DbState) (sessionId facultyId : String) (isAdmin : Bool)
    (now : Int) : HandlerResponse × DbState :=
  match findSession db sessionId with
  | none => (⟨404, false, "Session not found", none, none⟩, db)
  | some session =>
    if session.facultyId ≠ facultyId ∧ ¬ isAdmin then
      (⟨403, false, "Permission denied", none, none⟩, db)
    else if session.status ≠ "active" then
      (⟨400, false, "Session is not active", none, none⟩, db)
    else
      let updated : SessionDoc := { session with status := "completed", endTime := some now }
      (⟨200, true, "Attendance session ended successfully", some updated, none⟩,
        { db with sessions := replaceFirst (fun s => s.sid == sessionId) updated db.sessions })

/-- The statistics block of `GET /api/attendance/sessions/:sessionId`. -/
structure SessionStats where
  totalStudents : Int
  presentCount : Int
  absentCount : Int
deriving DecidableEq

/-- The statistics computation of `GET /api/attendance/sessions/:sessionId`:
`attendanceRecords = Attendance.find({sessionId})`,
`totalStudents = course.enrolledStudents.length`,
`presentCount = records with status === 'present'`,
`absentCount = totalStudents - presentCount`. -/
def sessionStats (db : DbState) (sessionId : String) : Option SessionStats :=
  match findSession db sessionId with
  | none => none
  | some session =>
    match findCourse db session.courseId with
    | none => none
    | some course =>
      let records := db.attendance.filter (fun a => a.sessionId == sessionId)
      let totalStudents : Int := course.enrolledStudents.length
      let presentCount : Int := (records.filter (fun a => a.status == "present")).length
      some ⟨totalStudents, presentCount, totalStudents - presentCount⟩

/-- The number of attendance records of a session with status "late".  The
route computes no such count; this definition only serves to state the
claimed invariant `present + late + absent == rosterSize`. -/
def sessionLateCount (db : DbState) (sessionId : String) : Int :=
  ((db.attendance.filter (fun a => a.sessionId == sessionId)).filter
    (fun a => a.status == "late")).length

/-- The invariant of the unique compound index: no two attendance documents
share the (studentId, courseId, date) key. -/
def sameKey (a b : AttendanceDoc) : Prop :=
  a.studentId = b.studentId ∧ a.courseId = b.courseId ∧ a.date = b.date

instance : DecidableRel sameKey := fun a b => by
  unfold sameKey; infer_instance

/-- At most one attendance document per (studentId, courseId, date). -/
def KeyUnique (l : List AttendanceDoc) : Prop :=
  l.Pairwise (fun a b => ¬ sameKey a b)

instance : DecidablePred KeyUnique := fun l => by
  unfold KeyUnique; infer_instance

/-! Concrete fixtures used by counterexamples and witnesses. -/

/-- A course with a single enrolled student. -/
def courseC1 : CourseDoc := ⟨"c1", ["s1"]⟩

/-- An active session for `courseC1`. -/
def activeSession : SessionDoc := ⟨"sess1", "c1", "f1", "Lecture 1", "active", 0, none, 0⟩

/-- The same session after `endSession` (`status = 'completed'`). -/
def endedSession : SessionDoc := ⟨"sess1", "c1", "f1", "Lecture 1", "completed", 0, some 50, 0⟩

/-- State with one active session and no attendance records. -/
def dbActive : DbState := ⟨[courseC1], ["s1"], [activeSession], []⟩

/-- State with one ended session and no attendance records. -/
def dbEnded : DbState := ⟨[courseC1], ["s1"], [endedSession], []⟩

/-- A manual "late" record for the session of `dbActive`. -/
def lateRecord : AttendanceDoc :=
  ⟨"s1", "c1", "sess1", .str "2024-03-01", 1, "late", none, "manual", none, some "f1"⟩

/-- State whose only attendance record for the session is a "late" mark. -/
def dbLate : DbState := ⟨[courseC1], ["s1"], [activeSession], [lateRecord]⟩

/-- Claim C2, counterexample: with a roster of one student whose only record
is a "late" mark, the statistics route computes presentCount = 0 and
absentCount = totalStudents - presentCount = 1, and the claimed invariant
present + late + absent == rosterSize fails: 0 + 1 + 1 is not 1. -/
theorem C2_counterexample :
    sessionStats dbLate "sess1" = some ⟨1, 0, 1⟩ ∧
    sessionLateCount dbLate "sess1" = 1 ∧
    ((0 : Int) + 1 + 1 ≠ 1) := by
  refine ⟨by decide, by decide, by decide⟩

/-- Claim C2, amended: the statistics recompute `presentCount` from the
session's record set and derive `absentCount = totalStudents - presentCount`,
so `presentCount + absentCount = totalStudents` always holds; "late" records
are counted neither as present nor subtracted, so the claimed
present + late + absent == rosterSize fails whenever a record is late, and
the session schema's stored `absentStudents` counter is independent of this
derivation. -/
theorem C2_amended (db : DbState) (sessionId : String) (st : SessionStats)
    (h : sessionStats db sessionId = some st) :
    st.presentCount + st.absentCount = st.totalStudents := by
  unfold sessionStats at h
  split at h
  · exact absurd h (by simp)
  · split at h
    · exact absurd h (by simp)
    · simp only [Option.some.injEq] at h
      subst h
      simp only
      omega

/-- Witness for C2_amended at a concrete state. -/
theorem C2_amended_witness :
    sessionStats dbActive "sess1" = some ⟨1, 0, 1⟩ ∧ (0 : Int) + 1 = 1 :=
  ⟨by decide, C2_amended dbActive "sess1" ⟨1, 0, 1⟩ (by decide)⟩

/-- Claim C5, counterexample: starting a session while one is already active
for the course returns a 400 failure response carrying no session — not the
existing session — and leaves the state unchanged. -/
theorem C5_counterexample :
    (startSessionHandler dbActive "sess2" "c1" "Lecture 2" "f1" 10).1.success = false ∧
    (startSessionHandler dbActive "sess2" "c1" "Lecture 2" "f1" 10).1.status = 400 ∧
    (startSessionHandler dbActive "sess2" "c1" "Lecture 2" "f1" 10).1.sessionOut = none ∧
    (startSessionHandler dbActive "sess2" "c1" "Lecture 2" "f1" 10).2 = dbActive := by
  refine ⟨by decide, by decide, by decide, by decide⟩

/-- Claim C5, amended: while an active session exists for the course, a second
start is rejected with a 400 conflict response and the state is unchanged (in
particular no second session is created); when no active session exists for
the course, exactly one new active session is appended. -/
theorem C5_amended (db : DbState) (newSessionId courseId sessionName facultyId : String)
    (now : Int) :
    (∀ c s, findCourse db courseId = some c →
      db.sessions.find? (fun t => t.courseId == courseId && t.status == "active") = some s →
      startSessionHandler db newSessionId courseId sessionName facultyId now =
        (⟨400, false, "An attendance session is already active for this course", none, none⟩,
          db)) ∧
    (∀ c, findCourse db courseId = some c →
      db.sessions.find? (fun t => t.courseId == courseId && t.status == "active") = none →
      (startSessionHandler db newSessionId courseId sessionName facultyId now).2.sessions =
        db.sessions ++ [⟨newSessionId, courseId, facultyId, sessionName, "active", now, none, 0⟩] ∧
      (startSessionHandler db newSessionId courseId sessionName facultyId now).1.status = 201) := by
  constructor
  · intro c s hc hs
    unfold startSessionHandler
    rw [hc, hs]
  · intro c hc hs
    unfold startSessionHandler
    rw [hc, hs]
    exact ⟨rfl, rfl⟩

/-- Witness for C5_amended at a concrete state. -/
theorem C5_amended_witness :
    startSessionHandler dbActive "sess2" "c1" "Lecture 2" "f1" 10 =
      (⟨400, false, "An attendance session is already active for this course", none, none⟩,
        dbActive) :=
  (C5_amended dbActive "sess2" "c1" "Lecture 2" "f1" 10).1 courseC1 activeSession
    (by decide) (by decide)

/-- Claim C6, counterexample: a manual mark against an ended session is
accepted (201, a record is created), because the manual handler never checks
the session status — the claim says it must be rejected with an
invalid-state error. -/
theorem C6_counterexample :
    findSession dbEnded "sess1" = some endedSession ∧
    endedSession.status = "completed" ∧
    (manualHandler dbEnded "sess1" "s1" "present" none "f1" false "2024-03-01" 7).1.success
      = true ∧
    (manualHandler dbEnded "sess1" "s1" "present" none "f1" false "2024-03-01" 7).1.status
      = 201 ∧
    (manualHandler dbEnded "sess1" "s1" "present" none "f1" false "2024-03-01" 7).2.attendance.length
      = 1 := by
  refine ⟨by decide, by decide, by decide, by decide, by decide⟩

/-- Claim C6, amended: face-recognition marking and endSession fail with 404
when the session is missing and with 400 when the session is not active
(including already-ended sessions), and manual marking fails with 404 when
the session is missing; but manual marking performs no session-state check at
all, so a manual mark against an ended session is not rejected. -/
theorem C6_amended (db : DbState) (sessionId studentId statusReq : String)
    (notes : Option String) (facultyId : String) (isAdmin : Bool) (todayStr : String)
    (now : Int) (faceSuccess : Bool) (faceStudentId : String) (conf : ℚ) (todayMid : Int) :
    (findSession db sessionId = none →
      (faceRecognitionHandler db sessionId faceSuccess faceStudentId conf todayMid todayStr
        now).1.status = 404 ∧
      (manualHandler db sessionId studentId statusReq notes facultyId isAdmin todayStr
        now).1.status = 404 ∧
      (endSessionHandler db sessionId facultyId isAdmin now).1.status = 404) ∧
    (∀ session, findSession db sessionId = some session → session.status ≠ "active" →
      (faceRecognitionHandler db sessionId faceSuccess faceStudentId conf todayMid todayStr
        now).1.status = 400 ∧
      (endSessionHandler db sessionId facultyId true now).1.status = 400) := by
  constructor
  · intro h
    refine ⟨?_, ?_, ?_⟩
    · unfold faceRecognitionHandler; rw [h]
    · unfold manualHandler; rw [h]
    · unfold endSessionHandler; rw [h]
  · intro session h hstat
    constructor
    · unfold faceRecognitionHandler
      rw [h]
      simp [hstat]
    · unfold endSessionHandler
      rw [h]
      simp [hstat]

/-- Witness for C6_amended at a concrete state. -/
theorem C6_amended_witness :
    (faceRecognitionHandler dbEnded "sess1" true "s1" (9 / 10) 0 "2024-03-01" 7).1.status
      = 400 ∧
    (endSessionHandler dbEnded "sess1" "f1" true 7).1.status = 400 :=
  (C6_amended dbEnded "sess1" "s1" "present" none "f1" false "2024-03-01" 7 true "s1"
    (9 / 10) 0).2 endedSession (by decide) (by decide)

/-- Claim C7, amended: a failed plain load leaves the existing cache intact
but swallows the error (nothing is surfaced to the caller); a failed reload,
however, clears the cache before loading, so the previous entries are lost
and the cache is left empty — again with no surfaced error. -/
theorem C7_amended (α : Type) (cache : List (String × CacheEntry α)) (e : String) :
    loadFaceDescriptors cache (.error e) = (cache, none) ∧
    reloadFaceDescriptors cache (.error e) = ([], none) :=
  ⟨rfl, rfl⟩

/-- A one-entry descriptor cache. -/
def cacheOne : List (String × CacheEntry ℚ) := [("s1", ⟨"s1", "Alice", "S1", [some [0]]⟩)]

/-- Claim C7, counterexample: a reload whose store query fails leaves the
cache empty — the previously cached entry is gone (the cache was cleared
before the query) — and reports no error to the caller. -/
theorem C7_counterexample :
    reloadFaceDescriptors cacheOne (.error "db down") = ([], none) ∧
    ([] : List (String × CacheEntry ℚ)) ≠ cacheOne := by
  refine ⟨rfl, by decide⟩

/-! Generic lemmas about the running-maximum folds used by `bestConfidence`. -/

theorem le_foldl_max {α β : Type} [LinearOrder α] (f : β → α) :
    ∀ (l : List β) (a : α), a ≤ l.foldl (fun b e => max b (f e)) a := by
  intro l
  induction l with
  | nil => intro a; exact le_refl a
  | cons e es ih =>
    intro a
    exact le_trans (le_max_left a (f e)) (ih (max a (f e)))

theorem foldl_max_le {α β : Type} [LinearOrder α] (f : β → α) :
    ∀ (l : List β) (a B : α), a ≤ B → (∀ e ∈ l, f e ≤ B) →
      l.foldl (fun b e => max b (f e)) a ≤ B := by
  intro l
  induction l with
  | nil => intro a B ha _; exact ha
  | cons e es ih =>
    intro a B ha hf
    exact ih (max a (f e)) B (max_le ha (hf e (List.mem_cons_self e es)))
      (fun x hx => hf x (List.mem_cons_of_mem e hx))

theorem mem_le_foldl_max {α β : Type} [LinearOrder α] (f : β → α) :
    ∀ (l : List β) (a : α) (e : β), e ∈ l → f e ≤ l.foldl (fun b x => max b (f x)) a := by
  intro l
  induction l with
  | nil => intro a e he; exact absurd he (List.not_mem_nil e)
  | cons x xs ih =>
    intro a e he
    rcases List.mem_cons.mp he with h | h
    · subst h
      exact le_trans (le_max_right a (f e)) (le_foldl_max f xs (max a (f e)))
    · exact ih (max a (f x)) e h

/-- `compareFaces` on two present encodings of equal length. -/
theorem compareFaces_some {α : Type} [LinearOrderedField α] (sqrt : α → α)
    (l1 l2 : List α) (h : l1.length = l2.length) :
    compareFaces sqrt (some l1) (some l2) = max 0 (1 - sqrt (sqDiffSum l1 l2) / 2) := by
  simp [compareFaces, h]

/-- Every confidence produced by `compareFaces` (with the real square root)
lies in [0, 1]. -/
theorem compareFaces_bounds (e1 e2 : Option (List ℝ)) :
    0 ≤ compareFaces Real.sqrt e1 e2 ∧ compareFaces Real.sqrt e1 e2 ≤ 1 := by
  cases e1 with
  | none => exact ⟨le_refl 0, by norm_num [compareFaces]⟩
  | some l1 =>
    cases e2 with
    | none => exact ⟨le_refl 0, by norm_num [compareFaces]⟩
    | some l2 =>
      by_cases h : l1.length = l2.length
      · rw [compareFaces_some Real.sqrt l1 l2 h]
        refine ⟨le_max_left 0 _, max_le (by norm_num) ?_⟩
        have := Real.sqrt_nonneg (sqDiffSum l1 l2)
        linarith
      · have : compareFaces Real.sqrt (some l1) (some l2) = 0 := by
          simp [compareFaces, h]
        rw [this]
        norm_num

/-- Claim C3, counterexample: the per-comparison score is not
max(0, 1 - (squared distance)/2).  For input [0] against stored [1/2] the
squared Euclidean distance is 1/4, so the claimed score is 7/8, but the code
takes a square root (`Math.sqrt`) first and returns 3/4. -/
theorem C3_counterexample :
    compareFaces Real.sqrt (some [(0 : ℝ)]) (some [1 / 2]) = 3 / 4 ∧
    sqDiffSum [(0 : ℝ)] [1 / 2] = 1 / 4 ∧
    max 0 (1 - sqDiffSum [(0 : ℝ)] [1 / 2] / 2) = 7 / 8 ∧
    (3 / 4 : ℝ) ≠ 7 / 8 := by
  have hsq : sqDiffSum [(0 : ℝ)] [1 / 2] = 1 / 4 := by
    norm_num [sqDiffSum]
  have hroot : Real.sqrt (1 / 4) = 1 / 2 := by
    rw [show (1 / 4 : ℝ) = (1 / 2) ^ 2 by norm_num]
    exact Real.sqrt_sq (by norm_num)
  refine ⟨?_, hsq, ?_, by norm_num⟩
  · rw [compareFaces_some Real.sqrt _ _ (by norm_num), hsq, hroot]
    norm_num
  · rw [hsq]
    norm_num

/-- Claim C3, amended: for a student whose stored descriptors all have the
input's dimensionality, the best score equals max(0, 1 - sqrt(d)/2) where d
is the minimum squared Euclidean distance to the input over the stored
descriptors — the code converts the distance with a square root (plain
Euclidean distance), not with the claimed linear map of the squared
distance — and the score lies in [0, 1]. -/
theorem C3_amended (input : List ℝ) (encs : List (Option (List ℝ))) (d : ℝ)
    (hall : ∀ e ∈ encs, ∃ l, e = some l ∧ l.length = input.length)
    (hd : ∃ e ∈ encs, ∃ l, e = some l ∧ sqDiffSum input l = d)
    (hmin : ∀ e ∈ encs, ∀ l, e = some l → d ≤ sqDiffSum input l) :
    bestConfidence Real.sqrt (some input) encs = max 0 (1 - Real.sqrt d / 2) ∧
    0 ≤ bestConfidence Real.sqrt (some input) encs ∧
    bestConfidence Real.sqrt (some input) encs ≤ 1 := by
  have hnonneg : (0 : ℝ) ≤ bestConfidence Real.sqrt (some input) encs :=
    le_foldl_max _ encs 0
  have hle1 : bestConfidence Real.sqrt (some input) encs ≤ 1 :=
    foldl_max_le _ encs 0 1 (by norm_num)
      (fun e _ => (compareFaces_bounds (some input) e).2)
  refine ⟨le_antisymm ?_ ?_, hnonneg, hle1⟩
  · refine foldl_max_le _ encs 0 (max 0 (1 - Real.sqrt d / 2)) (le_max_left 0 _) ?_
    intro e he
    obtain ⟨l, rfl, hlen⟩ := hall e he
    rw [compareFaces_some Real.sqrt input l hlen.symm]
    have hdl : d ≤ sqDiffSum input l := hmin _ he l rfl
    have := Real.sqrt_le_sqrt hdl
    exact max_le_max (le_refl 0) (by linarith)
  · obtain ⟨e, he, l, rfl, hdl⟩ := hd
    have heq : compareFaces Real.sqrt (some input) (some l) =
        max 0 (1 - Real.sqrt d / 2) := by
      obtain ⟨l2, hl2, hlen⟩ := hall _ he
      have : l = l2 := by injection hl2
      subst this
      rw [compareFaces_some Real.sqrt input l hlen.symm, hdl]
    rw [← heq]
    exact mem_le_foldl_max _ encs 0 _ he

/-- Witness for C3_amended at input [0] with stored descriptors [0] and [1]:
the minimum squared distance is 0 and the best score is max(0, 1 - sqrt(0)/2). -/
theorem C3_amended_witness :
    bestConfidence Real.sqrt (some [(0 : ℝ)]) [some [0], some [1]] =
      max 0 (1 - Real.sqrt 0 / 2) ∧
    0 ≤ bestConfidence Real.sqrt (some [(0 : ℝ)]) [some [0], some [1]] ∧
    bestConfidence Real.sqrt (some [(0 : ℝ)]) [some [0], some [1]] ≤ 1 := by
  refine C3_amended [0] [some [0], some [1]] 0 ?_ ?_ ?_
  · intro e he
    rcases List.mem_cons.mp he with h | h
    · exact ⟨[0], h, rfl⟩
    · simp only [List.mem_singleton] at h
      exact ⟨[1], h, rfl⟩
  · refine ⟨some [0], List.mem_cons_self _ _, [0], rfl, ?_⟩
    norm_num [sqDiffSum]
  · intro e he l hl
    have h1 : sqDiffSum [(0 : ℝ)] [0] = 0 := by norm_num [sqDiffSum]
    have h2 : sqDiffSum [(0 : ℝ)] [1] = 1 := by norm_num [sqDiffSum]
    rcases List.mem_cons.mp he with h | h
    · rw [h] at hl
      injection hl with hl
      subst hl
      rw [h1]
    · simp only [List.mem_singleton] at h
      rw [h] at hl
      injection hl with hl
      subst hl
      rw [h2]
      norm_num

/-- Claim C9, confirmed: a missing encoding or a dimensionality mismatch makes
the comparison score 0 instead of raising an error, and such a malformed
stored descriptor contributes nothing to a student's best score — removing it
from the scan leaves the result unchanged, so matching proceeds over all
remaining descriptors and students. -/
theorem C9_confirmed {α : Type} [LinearOrderedField α] (sqrt : α → α) :
    (∀ l1 l2 : List α, l1.length ≠ l2.length →
      compareFaces sqrt (some l1) (some l2) = 0) ∧
    (∀ e : Option (List α), compareFaces sqrt none e = 0 ∧ compareFaces sqrt e none = 0) ∧
    (∀ (input : List α) (encs1 encs2 : List (Option (List α))) (bad : Option (List α)),
      compareFaces sqrt (some input) bad = 0 →
      bestConfidence sqrt (some input) (encs1 ++ bad :: encs2) =
        bestConfidence sqrt (some input) (encs1 ++ encs2)) := by
  refine ⟨?_, ?_, ?_⟩
  · intro l1 l2 h
    simp [compareFaces, h]
  · intro e
    refine ⟨rfl, ?_⟩
    cases e with
    | none => rfl
    | some l => rfl
  · intro input encs1 encs2 bad hbad
    unfold bestConfidence
    rw [List.foldl_append, List.foldl_append]
    generalize ha : encs1.foldl (fun best e => max best (compareFaces sqrt (some input) e)) 0 = a
    have hpos : (0 : α) ≤ a := by
      rw [← ha]
      exact le_foldl_max _ encs1 0
    simp only [List.foldl_cons, hbad]
    rw [max_eq_left hpos]

/-- Claim C4, amended: the acceptance boundary is strict, not inclusive — a
candidate enters the results list exactly when its best score is strictly
greater than 0.7; every produced result has confidence > 0.7, and every
enrolled cached student with best score > 0.7 appears among the results with
that score. -/
theorem C4_amended {α : Type} [LinearOrderedField α] (sqrt : α → α)
    (cache : List (String × CacheEntry α)) (enrolledStudentIds : List String)
    (inputEncoding : List α) :
    (∀ r ∈ candidateResults sqrt cache enrolledStudentIds inputEncoding,
      (7 / 10 : α) < r.confidence) ∧
    (∀ p ∈ cache, enrolledStudentIds.contains p.1 = true →
      (7 / 10 : α) < bestConfidence sqrt (some inputEncoding) p.2.encodings →
      ∃ r ∈ candidateResults sqrt cache enrolledStudentIds inputEncoding,
        r.studentId = p.2.studentId ∧
        r.confidence = bestConfidence sqrt (some inputEncoding) p.2.encodings) := by
  constructor
  · intro r hr
    simp only [candidateResults, List.mem_filterMap] at hr
    obtain ⟨p, hp, hf⟩ := hr
    split at hf
    · rename_i hcond
      cases hf
      exact hcond
    · exact absurd hf (by simp)
  · intro p hp hcont hbest
    refine ⟨⟨p.2.studentId, p.2.name, p.2.studentIdNumber,
      bestConfidence sqrt (some inputEncoding) p.2.encodings⟩, ?_, rfl, rfl⟩
    simp only [candidateResults, List.mem_filterMap]
    refine ⟨p, List.mem_filter.mpr ⟨hp, hcont⟩, ?_⟩
    split
    · rfl
    · rename_i hcond
      exact absurd hbest hcond

/-- A one-entry descriptor cache over the reals, student "a" enrolled with a
single stored descriptor [0]. -/
def cacheA : List (String × CacheEntry ℝ) := [("a", ⟨"a", "Alice", "A1", [some [0]]⟩)]

/-- Best score of a student whose single stored descriptor coincides with the
input: distance 0, confidence 1. -/
theorem bestConf_single_zero :
    bestConfidence Real.sqrt (some [(0 : ℝ)]) [some [0]] = 1 := by
  have hsq : sqDiffSum [(0 : ℝ)] [0] = 0 := by norm_num [sqDiffSum]
  have hcf : compareFaces Real.sqrt (some [(0 : ℝ)]) (some [0]) = 1 := by
    rw [compareFaces_some Real.sqrt _ _ rfl, hsq, Real.sqrt_zero]
    norm_num
  simp [bestConfidence, hcf]

/-- Witness for C4_amended: with the input equal to the stored descriptor the
best score 1 exceeds 0.7 and the student is produced. -/
theorem C4_amended_witness :
    ∃ r ∈ candidateResults Real.sqrt cacheA ["a"] [0],
      r.studentId = "a" ∧
      r.confidence = bestConfidence Real.sqrt (some [(0 : ℝ)]) [some [0]] :=
  (C4_amended Real.sqrt cacheA ["a"] [0]).2
    ("a", (⟨"a", "Alice", "A1", [some [0]]⟩ : CacheEntry ℝ))
    (by simp [cacheA]) rfl (by rw [bestConf_single_zero]; norm_num)

/-- Best score of a student whose single stored descriptor [0] is compared
against the input [3/5]: squared distance 9/25, Euclidean distance 3/5,
confidence exactly 0.7. -/
theorem bestConf_single_sevenTenths :
    bestConfidence Real.sqrt (some [(3 / 5 : ℝ)]) [some [0]] = 7 / 10 := by
  have hsq : sqDiffSum [(3 / 5 : ℝ)] [0] = 9 / 25 := by norm_num [sqDiffSum]
  have hroot : Real.sqrt (9 / 25) = 3 / 5 := by
    rw [show (9 / 25 : ℝ) = (3 / 5) ^ 2 by norm_num]
    exact Real.sqrt_sq (by norm_num)
  have hcf : compareFaces Real.sqrt (some [(3 / 5 : ℝ)]) (some [0]) = 7 / 10 := by
    rw [compareFaces_some Real.sqrt [(3 / 5 : ℝ)] [0] rfl, hsq, hroot]
    norm_num
  simp [bestConfidence, hcf]
  norm_num

/-- Claim C4, counterexample: a best score exactly equal to the floor 0.7 is
excluded — the candidate list and the final result are empty although the
claim requires inclusion at the boundary. -/
theorem C4_counterexample :
    bestConfidence Real.sqrt (some [(3 / 5 : ℝ)]) [some [0]] = 7 / 10 ∧
    candidateResults Real.sqrt cacheA ["a"] [3 / 5] = [] ∧
    recognizeFace Real.sqrt cacheA (some ["a"]) [3 / 5] = [] := by
  have hbc := bestConf_single_sevenTenths
  have hcand : candidateResults Real.sqrt cacheA ["a"] [3 / 5] = [] := by
    have hfil : cacheA.filter (fun p => (["a"] : List String).contains p.1) = cacheA := rfl
    unfold candidateResults
    rw [hfil]
    show List.filterMap _ [("a", (⟨"a", "Alice", "A1", [some [0]]⟩ : CacheEntry ℝ))] = []
    rw [List.filterMap_cons]
    simp only
    rw [hbc, if_neg (by norm_num)]
    rfl
  refine ⟨hbc, hcand, ?_⟩
  show (sortByConfidenceDesc (candidateResults Real.sqrt cacheA ["a"] [3 / 5])).take 3 = []
  rw [hcand]
  rfl

/-- Claim C8, amended: the returned list is sorted by non-increasing
confidence and has at most 3 entries; ties are not broken by ascending
studentId — the sort is stable, so equal scores keep the cache iteration
order. -/
theorem C8_amended {α : Type} [LinearOrderedField α] (sqrt : α → α)
    (cache : List (String × CacheEntry α)) (courseRoster : Option (List String))
    (inputEncoding : List α) :
    List.Sorted (fun a b : MatchResult α => b.confidence ≤ a.confidence)
      (recognizeFace sqrt cache courseRoster inputEncoding) ∧
    (recognizeFace sqrt cache courseRoster inputEncoding).length ≤ 3 := by
  cases courseRoster with
  | none => exact ⟨List.sorted_nil, by simp [recognizeFace]⟩
  | some enrolledStudentIds =>
    haveI : IsTotal (MatchResult α) (fun a b => b.confidence ≤ a.confidence) :=
      ⟨fun a b => le_total b.confidence a.confidence⟩
    haveI : IsTrans (MatchResult α) (fun a b => b.confidence ≤ a.confidence) :=
      ⟨fun a b c hab hbc => le_trans hbc hab⟩
    constructor
    · have hs := List.sorted_insertionSort (fun a b : MatchResult α => b.confidence ≤ a.confidence)
        (candidateResults sqrt cache enrolledStudentIds inputEncoding)
    
      exact List.Pairwise.sublist (List.take_sublist 3 _) hs
    · exact List.length_take_le 3 _

/-- A two-entry cache whose map iteration order is "b" before "a". -/
def cacheTie : List (String × CacheEntry ℝ) :=
  [("b", ⟨"b", "Bob", "B1", [some [0]]⟩), ("a", ⟨"a", "Alice", "A1", [some [0]]⟩)]

/-- Claim C8, counterexample: two students tie with score 1, and the result
keeps the cache order ["b", "a"] although "a" < "b" — the claimed
ascending-studentId tie-break does not happen. -/
theorem C8_counterexample :
    (recognizeFace Real.sqrt cacheTie (some ["a", "b"]) [0]).map (fun r => r.studentId)
      = ["b", "a"] ∧
    (recognizeFace Real.sqrt cacheTie (some ["a", "b"]) [0]).map (fun r => r.confidence)
      = [1, 1] ∧
    ("a" : String) < "b" := by
  have hcand : candidateResults Real.sqrt cacheTie ["a", "b"] [0] =
      [⟨"b", "Bob", "B1", 1⟩, ⟨"a", "Alice", "A1", 1⟩] := by
    have hfil : cacheTie.filter (fun p => (["a", "b"] : List String).contains p.1) = cacheTie :=
      rfl
    unfold candidateResults
    rw [hfil]
    show List.filterMap _
      [("b", (⟨"b", "Bob", "B1", [some [0]]⟩ : CacheEntry ℝ)),
        ("a", (⟨"a", "Alice", "A1", [some [0]]⟩ : CacheEntry ℝ))] = _
    rw [List.filterMap_cons, List.filterMap_cons]
    dsimp only
    rw [bestConf_single_zero]
    simp only [if_pos (by norm_num : (1 : ℝ) > 7 / 10)]
    rfl
  have hsort : sortByConfidenceDesc
      [(⟨"b", "Bob", "B1", 1⟩ : MatchResult ℝ), ⟨"a", "Alice", "A1", 1⟩] =
      [⟨"b", "Bob", "B1", 1⟩, ⟨"a", "Alice", "A1", 1⟩] := by
    unfold sortByConfidenceDesc
    simp only [List.insertionSort, List.orderedInsert]
    rw [if_pos (by norm_num : ((⟨"a", "Alice", "A1", 1⟩ : MatchResult ℝ)).confidence ≤
      ((⟨"b", "Bob", "B1", 1⟩ : MatchResult ℝ)).confidence)]
  have hrec : recognizeFace Real.sqrt cacheTie (some ["a", "b"]) [0] =
      [⟨"b", "Bob", "B1", 1⟩, ⟨"a", "Alice", "A1", 1⟩] := by
    show (sortByConfidenceDesc (candidateResults Real.sqrt cacheTie ["a", "b"] [0])).take 3 = _
    rw [hcand, hsort]
    rfl
  rw [hrec]
  refine ⟨rfl, rfl, ?_⟩
  rw [String.lt_iff_toList_lt]
  decide

/-- Unpacking the manual-lookup predicate. -/
theorem manualExistingPred_eq (session : SessionDoc) (studentId todayStr : String)
    (b : AttendanceDoc) (h : manualExistingPred session studentId todayStr b = true) :
    b.studentId = studentId ∧ b.courseId = session.courseId ∧
    b.sessionId = session.sid ∧ b.date = BsonVal.str todayStr := by
  unfold manualExistingPred at h
  simp only [Bool.and_eq_true, beq_iff_eq] at h
  exact ⟨h.1.1.1, h.1.1.2, h.1.2, h.2⟩

/-- A guarded insert preserves key uniqueness. -/
theorem keyUnique_insert (l : List AttendanceDoc) (a : AttendanceDoc)
    (l2 : List AttendanceDoc) (h : KeyUnique l) (hins : insertAttendance l a = .ok l2) :
    KeyUnique l2 := by
  unfold insertAttendance at hins
  split at hins
  · exact absurd hins (by simp)
  · rename_i hdup
    simp only [Except.ok.injEq] at hins
    subst hins
    unfold KeyUnique at h ⊢
    rw [List.pairwise_append]
    refine ⟨h, List.pairwise_singleton _ _, ?_⟩
    intro x hx y hy
    simp only [List.mem_singleton] at hy
    subst hy
    intro hkey
    apply hdup
    unfold hasDuplicateKey
    rw [List.any_eq_true]
    refine ⟨x, hx, ?_⟩
    obtain ⟨h1, h2, h3⟩ := hkey
    simp [h1, h2, h3]

/-- Membership after an in-place replacement. -/
theorem mem_replaceFirst {β : Type} (p : β → Bool) (v : β) :
    ∀ (l : List β) (y : β), y ∈ replaceFirst p v l →
      y ∈ l ∨ ∃ b ∈ l, p b = true ∧ y = v := by
  intro l
  induction l with
  | nil =>
    intro y hy
    rw [replaceFirst] at hy
    exact absurd hy (List.not_mem_nil y)
  | cons x xs ih =>
    intro y hy
    rw [replaceFirst] at hy
    split at hy
    · rename_i hpx
      rcases List.mem_cons.mp hy with h | h
      · exact Or.inr ⟨x, List.mem_cons_self x xs, hpx, h⟩
      · exact Or.inl (List.mem_cons_of_mem x h)
    · rcases List.mem_cons.mp hy with h | h
      · subst h
        exact Or.inl (List.mem_cons_self y xs)
      · rcases ih y h with h2 | ⟨b, hb, hpb, hyv⟩
        · exact Or.inl (List.mem_cons_of_mem x h2)
        · exact Or.inr ⟨b, List.mem_cons_of_mem x hb, hpb, hyv⟩

/-- Replacing a record in place by one with the same key preserves key
uniqueness. -/
theorem keyUnique_replaceFirst (p : AttendanceDoc → Bool) (v : AttendanceDoc) :
    ∀ l : List AttendanceDoc, KeyUnique l → (∀ b, p b = true → sameKey b v) →
      KeyUnique (replaceFirst p v l) := by
  intro l
  induction l with
  | nil =>
    intro _ _
    rw [replaceFirst]
    exact List.Pairwise.nil
  | cons x xs ih =>
    intro h hk
    rw [replaceFirst]
    rcases List.pairwise_cons.mp h with ⟨hx, hxs⟩
    split
    · rename_i hpx
      refine List.pairwise_cons.mpr ⟨?_, hxs⟩
      intro y hy hkey
      apply hx y hy
      have h1 := hk x hpx
      exact ⟨h1.1.trans hkey.1, h1.2.1.trans hkey.2.1, h1.2.2.trans hkey.2.2⟩
    · refine List.pairwise_cons.mpr ⟨?_, ih hxs hk⟩
      intro y hy
      rcases mem_replaceFirst p v xs y hy with h2 | ⟨b, hb, hpb, hyv⟩
      · exact hx y h2
      · subst hyv
        intro hkey
        apply hx b hb
        have h1 := hk b hpb
        exact ⟨hkey.1.trans h1.1.symm, hkey.2.1.trans h1.2.1.symm,
          hkey.2.2.trans h1.2.2.symm⟩

/-- In-place replacement keeps the record count. -/
theorem replaceFirst_length {β : Type} (p : β → Bool) (v : β) :
    ∀ l : List β, (replaceFirst p v l).length = l.length := by
  intro l
  induction l with
  | nil => rfl
  | cons x xs ih =>
    rw [replaceFirst]
    split
    · rfl
    · simp [ih]

/-- Claim C1, amended: both marking handlers preserve the at-most-one-record
invariant for every (studentId, courseId, date) key — a write either goes
through the unique-index-guarded insert or replaces the found record in place
with one of the same key — and a manual re-mark that finds an existing record
updates it in place (the record count is unchanged and the handler answers
200).  A repeated automatic recognition, however, does not update in place:
it fails (see the counterexample). -/
theorem C1_amended (db : DbState) (sessionId faceStudentId studentId statusReq : String)
    (faceSuccess : Bool) (conf : ℚ) (todayMid : Int) (todayStr : String) (now : Int)
    (notes : Option String) (facultyId : String) (isAdmin : Bool)
    (h : KeyUnique db.attendance) :
    KeyUnique ((faceRecognitionHandler db sessionId faceSuccess faceStudentId conf todayMid
      todayStr now).2).attendance ∧
    KeyUnique ((manualHandler db sessionId studentId statusReq notes facultyId isAdmin
      todayStr now).2).attendance ∧
    (∀ session a, findSession db sessionId = some session →
      ¬ (session.facultyId ≠ facultyId ∧ ¬ isAdmin) →
      db.students.contains studentId = true →
      db.attendance.find? (manualExistingPred session studentId todayStr) = some a →
      ((manualHandler db sessionId studentId statusReq notes facultyId isAdmin todayStr
        now).2).attendance.length = db.attendance.length ∧
      (manualHandler db sessionId studentId statusReq notes facultyId isAdmin todayStr
        now).1.status = 200) := by
  refine ⟨?_, ?_, ?_⟩
  · unfold faceRecognitionHandler
    split
    · exact h
    · split
      · exact h
      · split
        · exact h
        · split
          · exact h
          · split
            · exact h
            · dsimp only
              split
              · exact h
              · rename_i l hins
                exact keyUnique_insert db.attendance _ l h hins
  · unfold manualHandler
    split
    · exact h
    · rename_i session hsess
      split
      · exact h
      · split
        · exact h
        · split
          · rename_i a ha
            refine keyUnique_replaceFirst _ _ db.attendance h ?_
            intro b hb
            have hb2 := manualExistingPred_eq session studentId todayStr b hb
            have ha2 := manualExistingPred_eq session studentId todayStr a
              (List.find?_some ha)
            exact ⟨hb2.1.trans ha2.1.symm, hb2.2.1.trans ha2.2.1.symm,
              hb2.2.2.2.trans ha2.2.2.2.symm⟩
          · dsimp only
            split
            · exact h
            · rename_i l hins
              exact keyUnique_insert db.attendance _ l h hins
  · intro session a hsess hperm hstud hfind
    unfold manualHandler
    rw [hsess]
    dsimp only
    rw [if_neg hperm, if_neg (not_not_intro hstud), hfind]
    dsimp only
    exact ⟨replaceFirst_length _ _ db.attendance, rfl⟩

/-- Witness for C1_amended at a concrete state. -/
theorem C1_amended_witness :
    KeyUnique ((faceRecognitionHandler dbActive "sess1" true "s1" 1 0 "2024-03-01"
      5).2).attendance :=
  (C1_amended dbActive "sess1" "s1" "s1" "present" true 1 0 "2024-03-01" 5 none
    "f1" false (by decide)).1

/-- A record created by the face-recognition path: string date, as saved. -/
def presentRecord : AttendanceDoc :=
  ⟨"s1", "c1", "sess1", .str "2024-03-01", 5, "present", none, "face_recognition",
    some 1, none⟩

/-- State in which student "s1" is already marked for course "c1" today. -/
def dbMarked : DbState := ⟨[courseC1], ["s1"], [activeSession], [presentRecord]⟩

/-- Claim C1, counterexample: a second automatic recognition of a student
already marked for that (course, date) neither updates the record in place
nor succeeds — the duplicate lookup misses (string date against Date-range
bounds), the insert trips the unique index, and the handler answers 500 with
the state unchanged. -/
theorem C1_counterexample :
    (faceRecognitionHandler dbMarked "sess1" true "s1" 1 1709251200000 "2024-03-01"
      6).1.status = 500 ∧
    (faceRecognitionHandler dbMarked "sess1" true "s1" 1 1709251200000 "2024-03-01"
      6).1.success = false ∧
    (faceRecognitionHandler dbMarked "sess1" true "s1" 1 1709251200000 "2024-03-01"
      6).2 = dbMarked := by
  refine ⟨by decide, by decide, by decide⟩

/-- Claim C10, confirmed: when every stored attendance date is a
"YYYY-MM-DD" string (as both marking paths store it), the face-recognition
handler's existing-attendance lookup — which filters on sessionId and
compares the date field against JS Date range bounds — never finds a match,
so for an already-marked student the handler skips the "already marked"
branch, attempts the save, and is stopped by the unique
(studentId, courseId, date) index with a 500 error instead of an in-place
update. -/
theorem C10_confirmed (db : DbState) (sessionId faceStudentId : String) (conf : ℚ)
    (todayMid : Int) (todayStr : String) (now : Int) (session : SessionDoc)
    (hdates : ∀ a ∈ db.attendance, ∃ s, a.date = BsonVal.str s)
    (hsess : findSession db sessionId = some session)
    (hactive : session.status = "active")
    (hstud : db.students.contains faceStudentId = true)
    (hexist : db.attendance.any (fun b => b.studentId == faceStudentId &&
      b.courseId == session.courseId && b.date == BsonVal.str todayStr) = true) :
    findExistingFaceAttendance db session faceStudentId todayMid = none ∧
    faceRecognitionHandler db sessionId true faceStudentId conf todayMid todayStr now =
      (⟨500, false, "Face recognition processing failed", none, none⟩, db) := by
  have hnone : findExistingFaceAttendance db session faceStudentId todayMid = none := by
    unfold findExistingFaceAttendance
    rw [List.find?_eq_none]
    intro a ha
    obtain ⟨s, hs⟩ := hdates a ha
    simp [hs, bsonGeDate]
  refine ⟨hnone, ?_⟩
  have hdup : insertAttendance db.attendance
      ⟨faceStudentId, session.courseId, session.sid, .str todayStr, now, "present", none,
        "face_recognition", some conf, none⟩ = .error () := by
    unfold insertAttendance
    rw [if_pos ?hc]
    case hc => exact hexist
  unfold faceRecognitionHandler
  rw [hsess]
  dsimp only
  rw [if_neg (not_not_intro hactive), if_neg (by simp),
    if_neg (not_not_intro hstud), hnone]
  dsimp only
  rw [hdup]

/-- A record created by the face-recognition path on 2024-03-02. -/
def presentRecordB : AttendanceDoc :=
  ⟨"s1", "c1", "sess1", .str "2024-03-02", 8, "present", none, "face_recognition",
    some 0, none⟩

/-- State in which "s1" is already marked on 2024-03-02. -/
def dbMarkedB : DbState := ⟨[courseC1], ["s1"], [activeSession], [presentRecordB]⟩

/-- Witness for C10_confirmed at a concrete state. -/
theorem C10_witness :
    findExistingFaceAttendance dbMarkedB activeSession "s1" 1709337600000 = none ∧
    faceRecognitionHandler dbMarkedB "sess1" true "s1" 0 1709337600000 "2024-03-02" 9 =
      (⟨500, false, "Face recognition processing failed", none, none⟩, dbMarkedB) :=
  C10_confirmed dbMarkedB "sess1" "s1" 0 1709337600000 "2024-03-02" 9 activeSession
    (by
      intro a ha
      have h1 : a = presentRecordB := List.mem_singleton.mp ha
      subst h1
      exact ⟨"2024-03-02", rfl⟩)
    (by decide) rfl (by decide) (by decide)

/-- Witness for C9_confirmed: a stored 2-dimensional descriptor scores 0
against a 1-dimensional input and drops out of the best-score scan. -/
theorem C9_witness :
    compareFaces Real.sqrt (some [(0 : ℝ)]) (some [0, 1]) = 0 ∧
    bestConfidence Real.sqrt (some [(0 : ℝ)]) [some [0, 1], some [0]] =
      bestConfidence Real.sqrt (some [(0 : ℝ)]) [some [0]] :=
  ⟨(C9_confirmed Real.sqrt).1 [0] [0, 1] (by norm_num),
    (C9_confirmed Real.sqrt).2.2 [0] [] [some [0]] (some [0, 1])
      ((C9_confirmed Real.sqrt).1 [0] [0, 1] (by norm_num))⟩
